import Mathlib

/-!
Verification of the Headacher authentication and identity subsystem.

Shallow embedding of the Cloudflare Worker source:
- `worker/hono-app.ts` (HTTP handlers: nonce issuance, SIWE verify, link
  endpoints, scoped resource handlers),
- `worker/services/identity-service.ts` (account/identity resolution),
- `worker/services/firebase-auth.ts` (federated key-set cache),
- `worker/utils.ts` (`requireAuth` middleware).

The D1 database is modelled as lists of rows; SQL statements become the
corresponding list operations.  Cryptographic results (SIWE signature
verification, JWT verification) and random values (nonces, UUIDs) are
passed in as explicit parameters or oracle functions, mirroring the exact
control flow around them.  Times are in milliseconds (`Int`), as produced
by `Date.getTime()`.
-/

namespace Headacher

/-- A row of the `nonces` table: `address TEXT PRIMARY KEY, nonce TEXT, issued_at`.
`issued_at` is the parsed time `new Date(issued_at).getTime()` in ms. -/
structure NonceRow where
  address : String
  nonce : String
  issued_at : Int
deriving Repr, DecidableEq

/-- A row of the `users_v2` table: `id TEXT PRIMARY KEY, email, display_name`. -/
structure UserRow where
  id : String
  email : Option String := none
  display_name : Option String := none
deriving Repr, DecidableEq

/-- A row of the `identities` table:
`id INTEGER PRIMARY KEY AUTOINCREMENT, user_id, provider, identifier, email, display_name`,
with `UNIQUE(provider, identifier)`. -/
structure IdentityRow where
  id : Nat
  user_id : String
  provider : String
  identifier : String
  email : Option String := none
  display_name : Option String := none
deriving Repr, DecidableEq

/-- A row of the `headaches` table. -/
structure HeadacheRow where
  id : Nat
  timestamp : String
  severity : Int
  aura : Int
  user_id : String
deriving Repr, DecidableEq

/-- A row of the `events` table. -/
structure EventRow where
  id : Nat
  timestamp : String
  event_type : String
  value : String
  user_id : String
deriving Repr, DecidableEq

/-- The D1 database state used by the worker. `nextIdentityId` models the
`AUTOINCREMENT` counter of the `identities` table. -/
structure DB where
  nonces : List NonceRow
  users : List UserRow
  identities : List IdentityRow
  nextIdentityId : Nat
  headaches : List HeadacheRow
  events : List EventRow
deriving Repr, DecidableEq

/-- An `HttpError(status, message)` from `worker/utils.ts`. -/
structure HttpErr where
  status : Nat
  message : String
deriving Repr, DecidableEq

/-! ## Nonce store (`nonces` table operations in `worker/hono-app.ts`) -/

/-- `INSERT OR REPLACE INTO nonces (address, nonce, issued_at) VALUES (?, ?, ?)`:
`address` is the primary key, so any prior row for the address is replaced. -/
def insertOrReplaceNonce (db : DB) (address nonce : String) (now : Int) : DB :=
  { db with nonces :=
      ⟨address, nonce, now⟩ :: db.nonces.filter (fun r => r.address != address) }

/-- `SELECT nonce, issued_at FROM nonces WHERE address = ? ORDER BY issued_at DESC`
read through `dbFirst` (first matching row; the primary key makes it unique). -/
def findNonce (db : DB) (address : String) : Option NonceRow :=
  db.nonces.find? (fun r => r.address == address)

/-- `DELETE FROM nonces WHERE address = ?`. -/
def deleteNonce (db : DB) (address : String) : DB :=
  { db with nonces := db.nonces.filter (fun r => r.address != address) }

/-- Handler for `GET /api/auth/nonce` (`worker/hono-app.ts`): generates a nonce
(`generateNonce()`, passed in as `nonce`) and upserts it for the address. -/
def getAuthNonce (db : DB) (address nonce : String) (now : Int) : DB :=
  insertOrReplaceNonce db address nonce now

/-! ## Identity service (`worker/services/identity-service.ts`) -/

/-- `SELECT ... FROM identities WHERE provider = ? AND identifier = ?` via `dbFirst`. -/
def getIdentity (db : DB) (provider identifier : String) : Option IdentityRow :=
  db.identities.find? (fun r => r.provider == provider && r.identifier == identifier)

/-- `SELECT id FROM users_v2 WHERE id = ?` via `dbFirst`. -/
def findUser (db : DB) (id : String) : Option UserRow :=
  db.users.find? (fun u => u.id == id)

/-- `INSERT INTO users_v2 (id, email, display_name) VALUES (?, ?, ?)`. -/
def insertUser (db : DB) (id : String) (email display_name : Option String) : DB :=
  { db with users := db.users ++ [⟨id, email, display_name⟩] }

/-- `INSERT INTO identities (user_id, provider, identifier, email, display_name)`:
the surrogate id comes from the `AUTOINCREMENT` counter. -/
def insertIdentity (db : DB) (user_id provider identifier : String)
    (email display_name : Option String) : DB :=
  { db with
      identities := db.identities ++
        [⟨db.nextIdentityId, user_id, provider, identifier, email, display_name⟩],
      nextIdentityId := db.nextIdentityId + 1 }

/-- `ensureUser(db, userId, profile)` with an explicit `userId`: insert a
`users_v2` row for `userId` if none exists, and return `userId`. -/
def ensureUserWithId (db : DB) (userId : String) (email display_name : Option String) : DB :=
  match findUser db userId with
  | some _ => db
  | none => insertUser db userId email display_name

/-- `upsertUserForSiwe(db, address)`: ensure a `users_v2` row with id `address`,
ensure an identity `(SIWE, address)` exists, and return `address` as the user id
(the code returns `address` unconditionally). -/
def upsertUserForSiwe (db : DB) (address : String) : String × DB :=
  let db1 := ensureUserWithId db address none none
  match getIdentity db1 "SIWE" address with
  | some _ => (address, db1)
  | none => (address, insertIdentity db1 address "SIWE" address none none)

/-- `upsertUserForGoogle(db, uid, email, displayName)`: if an identity
`(GOOGLE, uid)` exists return its `user_id`; otherwise create a fresh user
(with id `crypto.randomUUID()`, passed in as `freshId`) and the identity row. -/
def upsertUserForGoogle (db : DB) (uid : String) (email displayName : Option String)
    (freshId : String) : String × DB :=
  match getIdentity db "GOOGLE" uid with
  | some ex => (ex.user_id, db)
  | none =>
    let db1 := insertUser db freshId email displayName
    (freshId, insertIdentity db1 freshId "GOOGLE" uid email displayName)

/-- `linkSiweToUser(db, userId, address)`: 409 if the identity belongs to a
different user, no-op if it already belongs to `userId`, insert otherwise. -/
def linkSiweToUser (db : DB) (userId address : String) : Except HttpErr DB :=
  match getIdentity db "SIWE" address with
  | some ex =>
    if ex.user_id ≠ userId then
      .error ⟨409, "This wallet address is already linked to another account"⟩
    else .ok db
  | none => .ok (insertIdentity db userId "SIWE" address none none)

/-- `linkGoogleToUser(db, userId, uid, email, displayName)`: 409 if the identity
belongs to a different user, no-op if it already belongs to `userId`, insert
otherwise. -/
def linkGoogleToUser (db : DB) (userId uid : String)
    (email displayName : Option String) : Except HttpErr DB :=
  match getIdentity db "GOOGLE" uid with
  | some ex =>
    if ex.user_id ≠ userId then
      .error ⟨409, "This Google account is already linked to another account"⟩
    else .ok db
  | none => .ok (insertIdentity db userId "GOOGLE" uid email displayName)

/-- `SELECT ... FROM identities WHERE user_id = ?` — the identity set of an account. -/
def identitiesOf (db : DB) (userId : String) : List IdentityRow :=
  db.identities.filter (fun r => r.user_id == userId)

/-! ## SIWE verification endpoint (`POST /api/auth/verify`) -/

/-- The parsed fields of `new SiweMessage(body.message)` that the handler uses. -/
structure SiweMessage where
  address : String
  nonce : String
deriving Repr, DecidableEq

/-- Outcome of `POST /api/auth/verify`: a 200 with a JWT whose `sub` is the
resolved user id, or a JSON error response. -/
inductive SiweVerifyResult where
  | token (sub : String)
  | err (status : Nat) (message : String)
deriving Repr, DecidableEq

/-- `const fiveMinutes = 5 * 60 * 1000`. -/
def fiveMinutesMs : Int := 5 * 60 * 1000

/-- Handler for `POST /api/auth/verify` after message parsing.  `sigOk` is the
result of `siweMessage.verify({signature}).success`; `now` is `Date.now()`.
The checks run in source order: stored-nonce lookup, nonce equality, 5-minute
expiry, signature; on success the user is resolved via `upsertUserForSiwe`,
the nonce is deleted, and a token with `sub = userId` is returned. -/
def postAuthVerify (db : DB) (msg : SiweMessage) (sigOk : Bool) (now : Int) :
    SiweVerifyResult × DB :=
  match findNonce db msg.address with
  | none => (.err 401 "No nonce found for this address", db)
  | some stored =>
    if msg.nonce ≠ stored.nonce then (.err 401 "Invalid nonce", db)
    else if now - stored.issued_at > fiveMinutesMs then (.err 401 "Nonce expired", db)
    else if sigOk = false then (.err 401 "Invalid signature", db)
    else
      let res := upsertUserForSiwe db msg.address
      (.token res.1, deleteNonce res.2 msg.address)

/-! ## Link endpoints (`POST /api/auth/link/siwe`, `POST /api/auth/link/google`) -/

/-- Outcome of a link endpoint: `{success:true}` or a JSON error response. -/
inductive LinkResult where
  | success
  | err (status : Nat) (message : String)
deriving Repr, DecidableEq

/-- Handler for `POST /api/auth/link/siwe`, for an authenticated `userId`:
repeats the SIWE nonce/signature checks of `POST /api/auth/verify`, then calls
`linkSiweToUser`; a thrown `HttpError` (the 409 conflict) is surfaced with its
own status, and on success the nonce is deleted. -/
def postLinkSiwe (db : DB) (userId : String) (msg : SiweMessage) (sigOk : Bool)
    (now : Int) : LinkResult × DB :=
  match findNonce db msg.address with
  | none => (.err 401 "No nonce found for this address", db)
  | some stored =>
    if msg.nonce ≠ stored.nonce then (.err 401 "Invalid nonce", db)
    else if now - stored.issued_at > fiveMinutesMs then (.err 401 "Nonce expired", db)
    else if sigOk = false then (.err 401 "Invalid signature", db)
    else
      match linkSiweToUser db userId msg.address with
      | .error e => (.err e.status e.message, db)
      | .ok db1 => (.success, deleteNonce db1 msg.address)

/-- The `FirebaseUserInfo` produced by `verifyFirebaseIdToken`. -/
structure FirebaseUserInfo where
  uid : String
  email : Option String := none
  name : Option String := none
deriving Repr, DecidableEq

/-- Handler for `POST /api/auth/link/google`, for an authenticated `userId`:
`verification` is the outcome of `verifyFirebaseIdToken` (network + crypto,
passed in); a thrown `HttpError` is surfaced with its own status, otherwise
`linkGoogleToUser` runs. -/
def postLinkGoogle (db : DB) (userId : String)
    (verification : Except HttpErr FirebaseUserInfo) : LinkResult × DB :=
  match verification with
  | .error e => (.err e.status e.message, db)
  | .ok info =>
    match linkGoogleToUser db userId info.uid info.email info.name with
    | .error e => (.err e.status e.message, db)
    | .ok db1 => (.success, db1)

/-! ## Federated key-set cache (`worker/services/firebase-auth.ts`) -/

/-- The module-level `cachedCerts` value: the key ids of the cached key set and
its expiry time. -/
structure CertCache where
  kids : List String
  expiresAt : Int
deriving Repr, DecidableEq

/-- `fetchGoogleCerts()`: if a cache exists and `now < expiresAt`, return the
cached keys without a network fetch; otherwise fetch the provider's current
key set (`providerKids`, the key ids served at the well-known endpoint) and
cache it for 55 minutes.  Returns (available key ids, new cache state, whether
a network fetch occurred). -/
def fetchGoogleCerts (cache : Option CertCache) (now : Int) (providerKids : List String) :
    List String × Option CertCache × Bool :=
  match cache with
  | some c =>
    if now < c.expiresAt then (c.kids, some c, false)
    else (providerKids, some ⟨providerKids, now + 55 * 60 * 1000⟩, true)
  | none => (providerKids, some ⟨providerKids, now + 55 * 60 * 1000⟩, true)

/-- The decoded, untrusted token header of `verifyFirebaseIdToken`: its `kid`
field (`none` when the header carries no key id). -/
structure FbTokenHeader where
  kid : Option String
deriving Repr, DecidableEq

/-- Steps 1–2 of `verifyFirebaseIdToken`: extract the `kid` from the decoded
header (401 `"Firebase token missing key id"` if absent), obtain the key set
via `fetchGoogleCerts`, and select the key by `kid` (401
`"Unknown Firebase token key id"` if absent from the obtained set).  Returns
the selection outcome together with the new cache state and whether a network
fetch occurred. -/
def selectFirebaseKey (hdr : FbTokenHeader) (cache : Option CertCache) (now : Int)
    (providerKids : List String) : Except HttpErr String × Option CertCache × Bool :=
  match hdr.kid with
  | none => (.error ⟨401, "Firebase token missing key id"⟩, cache, false)
  | some kid =>
    let (keys, cache1, fetched) := fetchGoogleCerts cache now providerKids
    if keys.contains kid then (.ok kid, cache1, fetched)
    else (.error ⟨401, "Unknown Firebase token key id"⟩, cache1, fetched)

/-! ## Auth middleware (`requireAuth` in `worker/utils.ts`) -/

/-- The JWT payload fields `requireAuth` reads after `jwtVerify` succeeds. -/
structure JwtPayload where
  sub : Option String
  siwe_address : Option String := none
deriving Repr, DecidableEq

/-- `requireAuth(c)`: `header` is the `Authorization` header (`none` if absent);
`jwtVerify` is the verification oracle (`none` = any signature/expiry error).
Fails 401 `"Missing or invalid authorization header"` unless the header starts
with `"Bearer "` (`authHeader.startsWith("Bearer ")`, modelled as the first
seven characters equalling `"Bearer "`); strips that prefix (`slice(7)`,
modelled as `String.drop 7`) and verifies; an absent or
empty (`!userId`) `sub` throws inside the `try`, so it is surfaced — like any
verification error — as 401 `"Invalid or expired token"`.  On success yields
`(userId, optional siwe_address)` for downstream handlers. -/
def requireAuth (header : Option String) (jwtVerify : String → Option JwtPayload) :
    Except HttpErr (String × Option String) :=
  match header with
  | none => .error ⟨401, "Missing or invalid authorization header"⟩
  | some h =>
    if h.take 7 ≠ "Bearer " then
      .error ⟨401, "Missing or invalid authorization header"⟩
    else
      match jwtVerify (h.drop 7) with
      | none => .error ⟨401, "Invalid or expired token"⟩
      | some payload =>
        match payload.sub with
        | none => .error ⟨401, "Invalid or expired token"⟩
        | some u =>
          if u = "" then .error ⟨401, "Invalid or expired token"⟩
          else .ok (u, payload.siwe_address)

/-! ## Project-id selection on the Google endpoints (`worker/hono-app.ts`) -/

/-- `const projectId = body.projectId || c.env.FIREBASE_PROJECT_ID;
if (!projectId) return 500 "Server missing FIREBASE_PROJECT_ID"`, as written
identically in `POST /api/auth/google/verify` and `POST /api/auth/link/google`.
`none` models an absent value; JavaScript `||` and `!` treat the empty string
as absent. -/
def selectProjectId (bodyProjectId envProjectId : Option String) : Except HttpErr String :=
  let projectId : Option String :=
    match bodyProjectId with
    | some s => if s = "" then envProjectId else some s
    | none => envProjectId
  match projectId with
  | some s =>
    if s = "" then .error ⟨500, "Server missing FIREBASE_PROJECT_ID"⟩ else .ok s
  | none => .error ⟨500, "Server missing FIREBASE_PROJECT_ID"⟩

/-! ## Scoped resource handlers (`worker/hono-app.ts`) -/

/-- Outcome of a single-item resource handler. -/
inductive ItemResult (α : Type) where
  | ok (item : α)
  | noContent
  | err (status : Nat) (message : String)
deriving Repr, DecidableEq

/-- `SELECT * FROM headaches WHERE id = ? AND user_id = ?` via `dbFirst`. -/
def getHeadacheById (db : DB) (userId : String) (i : Nat) : Option HeadacheRow :=
  db.headaches.find? (fun r => r.id == i && r.user_id == userId)

/-- Handler for `GET /api/headaches/:id`: the row scoped by id and user id, or 404. -/
def getHeadacheEndpoint (db : DB) (userId : String) (i : Nat) : ItemResult HeadacheRow :=
  match getHeadacheById db userId i with
  | none => .err 404 "Not found"
  | some r => .ok r

/-- The validated field updates of `PATCH /api/headaches/:id`. -/
structure HeadachePatch where
  timestamp : Option String := none
  severity : Option Int := none
  aura : Option Int := none
deriving Repr, DecidableEq

/-- `UPDATE headaches SET <fields> WHERE id = ? AND user_id = ?` applied to one row. -/
def applyHeadachePatch (p : HeadachePatch) (r : HeadacheRow) : HeadacheRow :=
  { r with
      timestamp := p.timestamp.getD r.timestamp,
      severity := p.severity.getD r.severity,
      aura := p.aura.getD r.aura }

/-- Handler for `PATCH /api/headaches/:id`: runs the scoped `UPDATE`; when
`meta.changes == 0` (no row matched both id and user id) responds 404. -/
def patchHeadacheEndpoint (db : DB) (userId : String) (i : Nat) (p : HeadachePatch) :
    ItemResult HeadacheRow × DB :=
  let changes := (db.headaches.filter (fun r => r.id == i && r.user_id == userId)).length
  let updated := db.headaches.map
    (fun r => if r.id == i && r.user_id == userId then applyHeadachePatch p r else r)
  let db1 := { db with headaches := updated }
  if changes = 0 then (.err 404 "Not found", db1)
  else
    match getHeadacheById db1 userId i with
    | none => (.err 404 "Not found", db1)
    | some r => (.ok r, db1)

/-- Handler for `DELETE /api/headaches/:id`: runs
`DELETE FROM headaches WHERE id = ? AND user_id = ?`; 404 when no row matched,
204 (no content) otherwise. -/
def deleteHeadacheEndpoint (db : DB) (userId : String) (i : Nat) :
    ItemResult HeadacheRow × DB :=
  let changes := (db.headaches.filter (fun r => r.id == i && r.user_id == userId)).length
  let remaining := db.headaches.filter (fun r => !(r.id == i && r.user_id == userId))
  let db1 := { db with headaches := remaining }
  if changes = 0 then (.err 404 "Not found", db1) else (.noContent, db1)

/-- `SELECT * FROM events WHERE id = ? AND user_id = ?` via `dbFirst`. -/
def getEventById (db : DB) (userId : String) (i : Nat) : Option EventRow :=
  db.events.find? (fun r => r.id == i && r.user_id == userId)

/-- Handler for `GET /api/events/:id`: the row scoped by id and user id, or 404. -/
def getEventEndpoint (db : DB) (userId : String) (i : Nat) : ItemResult EventRow :=
  match getEventById db userId i with
  | none => .err 404 "Not found"
  | some r => .ok r

/-- The validated field updates of `PATCH /api/events/:id`. -/
structure EventPatch where
  timestamp : Option String := none
  event_type : Option String := none
  value : Option String := none
deriving Repr, DecidableEq

/-- `UPDATE events SET <fields> WHERE id = ? AND user_id = ?` applied to one row. -/
def applyEventPatch (p : EventPatch) (r : EventRow) : EventRow :=
  { r with
      timestamp := p.timestamp.getD r.timestamp,
      event_type := p.event_type.getD r.event_type,
      value := p.value.getD r.value }

/-- Handler for `PATCH /api/events/:id`: runs the scoped `UPDATE`; when
`meta.changes == 0` responds 404. -/
def patchEventEndpoint (db : DB) (userId : String) (i : Nat) (p : EventPatch) :
    ItemResult EventRow × DB :=
  let changes := (db.events.filter (fun r => r.id == i && r.user_id == userId)).length
  let updated := db.events.map
    (fun r => if r.id == i && r.user_id == userId then applyEventPatch p r else r)
  let db1 := { db with events := updated }
  if changes = 0 then (.err 404 "Not found", db1)
  else
    match getEventById db1 userId i with
    | none => (.err 404 "Not found", db1)
    | some r => (.ok r, db1)

/-- Handler for `DELETE /api/events/:id`: the scoped `DELETE`; 404 when no row
matched, 204 otherwise. -/
def deleteEventEndpoint (db : DB) (userId : String) (i : Nat) :
    ItemResult EventRow × DB :=
  let changes := (db.events.filter (fun r => r.id == i && r.user_id == userId)).length
  let remaining := db.events.filter (fun r => !(r.id == i && r.user_id == userId))
  let db1 := { db with events := remaining }
  if changes = 0 then (.err 404 "Not found", db1) else (.noContent, db1)

/-- The headaches query of `GET /api/dashboard`:
`SELECT timestamp, severity, aura FROM headaches WHERE timestamp >= ? AND
timestamp <= ? AND user_id = ?` (the source rows it projects from). -/
def dashboardHeadaches (db : DB) (userId startISO endISO : String) : List HeadacheRow :=
  db.headaches.filter (fun r =>
    decide (startISO ≤ r.timestamp) && decide (r.timestamp ≤ endISO) && r.user_id == userId)

/-- The events query of `GET /api/dashboard`:
`SELECT event_type, value, timestamp FROM events WHERE timestamp >= ? AND
timestamp <= ? AND user_id = ?` (the source rows it projects from). -/
def dashboardEvents (db : DB) (userId startISO endISO : String) : List EventRow :=
  db.events.filter (fun r =>
    decide (startISO ≤ r.timestamp) && decide (r.timestamp ≤ endISO) && r.user_id == userId)

/-- The empty database. -/
def emptyDB : DB := ⟨[], [], [], 1, [], []⟩

/-- A database holding one nonce row: address `"0xA"`, nonce `"n1"`, issued at 0. -/
def sampleNonceDB : DB := ⟨[⟨"0xA", "n1", 0⟩], [], [], 1, [], []⟩

/-- The state after a successful SIWE verification for `"0xA"` on `sampleNonceDB`. -/
def sampleVerifiedDB : DB :=
  ⟨[], [⟨"0xA", none, none⟩], [⟨1, "0xA", "SIWE", "0xA", none, none⟩], 2, [], []⟩

/-! ## Helper lemmas -/

theorem nonces_find_filter_ne (l : List NonceRow) (a : String) :
    (l.filter (fun r => r.address != a)).find? (fun r => r.address == a) = none := by
  rw [List.find?_eq_none]
  intro x hx
  have hne := (List.mem_filter.mp hx).2
  simpa using hne

theorem nonces_filter_eq_filter_ne (l : List NonceRow) (a : String) :
    (l.filter (fun r => r.address != a)).filter (fun r => r.address == a) = [] := by
  rw [List.filter_eq_nil_iff]
  intro x hx
  have hne := (List.mem_filter.mp hx).2
  simpa using hne

theorem findNonce_deleteNonce (db : DB) (a : String) :
    findNonce (deleteNonce db a) a = none :=
  nonces_find_filter_ne db.nonces a

theorem postAuthVerify_noNonce (db : DB) (msg : SiweMessage) (sigOk : Bool) (now : Int)
    (h : findNonce db msg.address = none) :
    postAuthVerify db msg sigOk now = (.err 401 "No nonce found for this address", db) := by
  simp [postAuthVerify, h]

theorem postAuthVerify_mismatch (db : DB) (msg : SiweMessage) (sigOk : Bool) (now : Int)
    (stored : NonceRow) (hf : findNonce db msg.address = some stored)
    (hne : msg.nonce ≠ stored.nonce) :
    postAuthVerify db msg sigOk now = (.err 401 "Invalid nonce", db) := by
  simp [postAuthVerify, hf, hne]

theorem postAuthVerify_expired (db : DB) (msg : SiweMessage) (sigOk : Bool) (now : Int)
    (stored : NonceRow) (hf : findNonce db msg.address = some stored)
    (heq : msg.nonce = stored.nonce) (hex : now - stored.issued_at > fiveMinutesMs) :
    postAuthVerify db msg sigOk now = (.err 401 "Nonce expired", db) := by
  simp [postAuthVerify, hf, heq, hex]

theorem postAuthVerify_badsig (db : DB) (msg : SiweMessage) (now : Int)
    (stored : NonceRow) (hf : findNonce db msg.address = some stored)
    (heq : msg.nonce = stored.nonce) (hnex : ¬(now - stored.issued_at > fiveMinutesMs)) :
    postAuthVerify db msg false now = (.err 401 "Invalid signature", db) := by
  simp [postAuthVerify, hf, heq, hnex]

theorem postAuthVerify_success (db : DB) (msg : SiweMessage) (now : Int)
    (stored : NonceRow) (hf : findNonce db msg.address = some stored)
    (heq : msg.nonce = stored.nonce) (hnex : ¬(now - stored.issued_at > fiveMinutesMs)) :
    postAuthVerify db msg true now
      = (.token (upsertUserForSiwe db msg.address).1,
         deleteNonce (upsertUserForSiwe db msg.address).2 msg.address) := by
  simp [postAuthVerify, hf, heq, hnex]

theorem postAuthVerify_token_inv (db db' : DB) (msg : SiweMessage) (sigOk : Bool)
    (now : Int) (u : String)
    (h : postAuthVerify db msg sigOk now = (.token u, db')) :
    db' = deleteNonce (upsertUserForSiwe db msg.address).2 msg.address := by
  cases hf : findNonce db msg.address with
  | none =>
    rw [postAuthVerify_noNonce db msg sigOk now hf] at h
    exact absurd h (by simp)
  | some stored =>
    by_cases h1 : msg.nonce = stored.nonce
    · by_cases h2 : now - stored.issued_at > fiveMinutesMs
      · rw [postAuthVerify_expired db msg sigOk now stored hf h1 h2] at h
        exact absurd h (by simp)
      · cases sigOk with
        | false =>
          rw [postAuthVerify_badsig db msg now stored hf h1 h2] at h
          exact absurd h (by simp)
        | true =>
          rw [postAuthVerify_success db msg now stored hf h1 h2] at h
          simp only [Prod.mk.injEq, SiweVerifyResult.token.injEq] at h
          exact h.2.symm
    · rw [postAuthVerify_mismatch db msg sigOk now stored hf h1] at h
      exact absurd h (by simp)

/-! ## Claims about the SIWE verification flow -/

/-- C3: on `POST /api/auth/verify` the checks run in order with the first
failing check determining the error: absent stored nonce → 401
"No nonce found for this address"; nonce mismatch → 401 "Invalid nonce";
more than five minutes since issuance → 401 "Nonce expired" (for any
signature validity); invalid signature → 401 "Invalid signature". -/
theorem siwe_verify_check_order (db : DB) (msg : SiweMessage) (sigOk : Bool) (now : Int) :
    (findNonce db msg.address = none →
      postAuthVerify db msg sigOk now = (.err 401 "No nonce found for this address", db)) ∧
    (∀ stored, findNonce db msg.address = some stored → msg.nonce ≠ stored.nonce →
      postAuthVerify db msg sigOk now = (.err 401 "Invalid nonce", db)) ∧
    (∀ stored, findNonce db msg.address = some stored → msg.nonce = stored.nonce →
      now - stored.issued_at > fiveMinutesMs →
      postAuthVerify db msg sigOk now = (.err 401 "Nonce expired", db)) ∧
    (∀ stored, findNonce db msg.address = some stored → msg.nonce = stored.nonce →
      ¬(now - stored.issued_at > fiveMinutesMs) → sigOk = false →
      postAuthVerify db msg sigOk now = (.err 401 "Invalid signature", db)) := by
  refine ⟨postAuthVerify_noNonce db msg sigOk now,
    fun stored hf hne => postAuthVerify_mismatch db msg sigOk now stored hf hne,
    fun stored hf heq hex => postAuthVerify_expired db msg sigOk now stored hf heq hex,
    fun stored hf heq hnex hsig => ?_⟩
  subst hsig
  exact postAuthVerify_badsig db msg now stored hf heq hnex

/-- Witness for C3: concrete runs hitting each of the four failure branches. -/
theorem siwe_verify_check_order_witness :
    postAuthVerify emptyDB ⟨"0xA", "n1"⟩ true 0
        = (.err 401 "No nonce found for this address", emptyDB) ∧
    postAuthVerify sampleNonceDB ⟨"0xA", "nX"⟩ true 0
        = (.err 401 "Invalid nonce", sampleNonceDB) ∧
    postAuthVerify sampleNonceDB ⟨"0xA", "n1"⟩ true 300001
        = (.err 401 "Nonce expired", sampleNonceDB) ∧
    postAuthVerify sampleNonceDB ⟨"0xA", "n1"⟩ false 1000
        = (.err 401 "Invalid signature", sampleNonceDB) :=
  ⟨(siwe_verify_check_order emptyDB ⟨"0xA", "n1"⟩ true 0).1 rfl,
   (siwe_verify_check_order sampleNonceDB ⟨"0xA", "nX"⟩ true 0).2.1
     ⟨"0xA", "n1", 0⟩ rfl (by decide),
   (siwe_verify_check_order sampleNonceDB ⟨"0xA", "n1"⟩ true 300001).2.2.1
     ⟨"0xA", "n1", 0⟩ rfl rfl (by decide),
   (siwe_verify_check_order sampleNonceDB ⟨"0xA", "n1"⟩ false 1000).2.2.2
     ⟨"0xA", "n1", 0⟩ rfl rfl (by decide) rfl⟩

/-- C4: nonce single-use — a successful verification deletes the stored nonce
for the claimed address, so resubmitting the identical message afterwards
fails with the nonce-absent 401, for any later time and signature outcome. -/
theorem nonce_single_use (db db' : DB) (msg : SiweMessage) (sigOk sigOk' : Bool)
    (now now' : Int) (u : String)
    (h : postAuthVerify db msg sigOk now = (.token u, db')) :
    postAuthVerify db' msg sigOk' now'
      = (.err 401 "No nonce found for this address", db') := by
  have hdb' := postAuthVerify_token_inv db db' msg sigOk now u h
  have hnone : findNonce db' msg.address = none := by
    rw [hdb']; exact findNonce_deleteNonce _ _
  exact postAuthVerify_noNonce db' msg sigOk' now' hnone

/-- Witness for C4: a concrete successful verification followed by a replay. -/
theorem nonce_single_use_witness :
    postAuthVerify sampleVerifiedDB ⟨"0xA", "n1"⟩ true 1000
      = (.err 401 "No nonce found for this address", sampleVerifiedDB) :=
  nonce_single_use sampleNonceDB sampleVerifiedDB ⟨"0xA", "n1"⟩ true true 1000 1000
    "0xA" (by decide)

/-- C5: issuing a nonce overwrites any prior nonce for the address — afterwards
exactly one nonce row exists for the address, holding the new value — and a
verification whose message carries a different (stale) nonce value fails with
the 401 "Invalid nonce" mismatch error. -/
theorem nonce_overwrite (db : DB) (addr n1 n2 : String) (t2 : Int)
    (msg : SiweMessage) (sigOk : Bool) (now : Int)
    (haddr : msg.address = addr) (hn : msg.nonce = n1) (hne : n1 ≠ n2) :
    ((getAuthNonce db addr n2 t2).nonces.filter (fun r => r.address == addr)
        = [⟨addr, n2, t2⟩]) ∧
    postAuthVerify (getAuthNonce db addr n2 t2) msg sigOk now
      = (.err 401 "Invalid nonce", getAuthNonce db addr n2 t2) := by
  constructor
  · unfold getAuthNonce insertOrReplaceNonce
    simp [List.filter_cons, nonces_filter_eq_filter_ne]
  · have hf : findNonce (getAuthNonce db addr n2 t2) msg.address
        = some ⟨addr, n2, t2⟩ := by
      subst haddr
      unfold getAuthNonce insertOrReplaceNonce findNonce
      simp [List.find?_cons]
    refine postAuthVerify_mismatch _ _ _ _ _ hf ?_
    rw [hn]
    exact hne

/-- Witness for C5: issuing `"n2"` over `"n1"` for `"0xA"`, then verifying a
message that still carries `"n1"`. -/
theorem nonce_overwrite_witness :
    ((getAuthNonce sampleNonceDB "0xA" "n2" 50).nonces.filter
        (fun r => r.address == "0xA") = [⟨"0xA", "n2", 50⟩]) ∧
    postAuthVerify (getAuthNonce sampleNonceDB "0xA" "n2" 50) ⟨"0xA", "n1"⟩ true 60
      = (.err 401 "Invalid nonce", getAuthNonce sampleNonceDB "0xA" "n2" 50) :=
  nonce_overwrite sampleNonceDB "0xA" "n1" "n2" 50 ⟨"0xA", "n1"⟩ true 60
    rfl rfl (by decide)

/-- C6 counterexample: two verification failures of different subtypes are
distinguishable — both are 401, but the nonce-absent failure and the
nonce-mismatch failure carry different message bodies, refuting the claim
that the client-visible responses are identical. -/
theorem auth_error_subtype_messages_differ :
    (postAuthVerify emptyDB ⟨"0xA", "n1"⟩ true 0).1
        = .err 401 "No nonce found for this address" ∧
    (postAuthVerify sampleNonceDB ⟨"0xA", "nX"⟩ true 0).1 = .err 401 "Invalid nonce" ∧
    ("No nonce found for this address" : String) ≠ "Invalid nonce" := by
  refine ⟨by decide, by decide, by decide⟩

/-- C6 amended: every verification failure is surfaced with the same HTTP
status 401, but the message body names the failing check, drawn from four
distinct subtype-specific strings. -/
theorem auth_failures_status_401 (db db' : DB) (msg : SiweMessage) (sigOk : Bool)
    (now : Int) (s : Nat) (m : String)
    (h : postAuthVerify db msg sigOk now = (.err s m, db')) :
    s = 401 ∧ (m = "No nonce found for this address" ∨ m = "Invalid nonce" ∨
      m = "Nonce expired" ∨ m = "Invalid signature") := by
  cases hf : findNonce db msg.address with
  | none =>
    rw [postAuthVerify_noNonce db msg sigOk now hf] at h
    simp only [Prod.mk.injEq, SiweVerifyResult.err.injEq] at h
    exact ⟨h.1.1.symm, .inl h.1.2.symm⟩
  | some stored =>
    by_cases h1 : msg.nonce = stored.nonce
    · by_cases h2 : now - stored.issued_at > fiveMinutesMs
      · rw [postAuthVerify_expired db msg sigOk now stored hf h1 h2] at h
        simp only [Prod.mk.injEq, SiweVerifyResult.err.injEq] at h
        exact ⟨h.1.1.symm, .inr (.inr (.inl h.1.2.symm))⟩
      · cases sigOk with
        | false =>
          rw [postAuthVerify_badsig db msg now stored hf h1 h2] at h
          simp only [Prod.mk.injEq, SiweVerifyResult.err.injEq] at h
          exact ⟨h.1.1.symm, .inr (.inr (.inr h.1.2.symm))⟩
        | true =>
          rw [postAuthVerify_success db msg now stored hf h1 h2] at h
          exact absurd h (by simp)
    · rw [postAuthVerify_mismatch db msg sigOk now stored hf h1] at h
      simp only [Prod.mk.injEq, SiweVerifyResult.err.injEq] at h
      exact ⟨h.1.1.symm, .inr (.inl h.1.2.symm)⟩

/-- Witness for C6 amended: the expired-nonce failure carries status 401. -/
theorem auth_failures_status_401_witness :
    (401 : Nat) = 401 ∧ (("Nonce expired" : String) = "No nonce found for this address" ∨
      "Nonce expired" = "Invalid nonce" ∨ ("Nonce expired" : String) = "Nonce expired" ∨
      "Nonce expired" = "Invalid signature") :=
  auth_failures_status_401 sampleNonceDB sampleNonceDB ⟨"0xA", "n1"⟩ true 300001
    401 "Nonce expired" (by decide)

/-! ## Claims about linking (`linkSiweToUser` / `linkGoogleToUser` and their endpoints) -/

/-- A database with a live nonce for `"0xA"` and an identity `(SIWE, "0xA")`
owned by account `"0xA"`. -/
def linkConflictDB : DB :=
  ⟨[⟨"0xA", "n1", 0⟩], [⟨"0xA", none, none⟩],
   [⟨1, "0xA", "SIWE", "0xA", none, none⟩], 2, [], []⟩

/-- C1: linking a verified credential `(provider, identifier)` to account `A`:
if no identity row exists for the pair, one owned by `A` is appended; if the
pair already belongs to `A`, the operation succeeds leaving the database
unchanged (no duplicate row); if the pair belongs to a different account, the
service raises the 409 conflict and the link endpoints surface it as an HTTP
409 response with the database — hence the identity sets of both accounts —
unchanged. -/
theorem link_identity_semantics (db : DB) (A addr uid : String) (em dn : Option String) :
    (getIdentity db "SIWE" addr = none →
      ∃ db', linkSiweToUser db A addr = .ok db' ∧
        db'.identities = db.identities ++ [⟨db.nextIdentityId, A, "SIWE", addr, none, none⟩]) ∧
    (∀ ex, getIdentity db "SIWE" addr = some ex → ex.user_id = A →
      linkSiweToUser db A addr = .ok db) ∧
    (∀ ex, getIdentity db "SIWE" addr = some ex → ex.user_id ≠ A →
      linkSiweToUser db A addr
        = .error ⟨409, "This wallet address is already linked to another account"⟩) ∧
    (getIdentity db "GOOGLE" uid = none →
      ∃ db', linkGoogleToUser db A uid em dn = .ok db' ∧
        db'.identities = db.identities ++ [⟨db.nextIdentityId, A, "GOOGLE", uid, em, dn⟩]) ∧
    (∀ ex, getIdentity db "GOOGLE" uid = some ex → ex.user_id = A →
      linkGoogleToUser db A uid em dn = .ok db) ∧
    (∀ ex, getIdentity db "GOOGLE" uid = some ex → ex.user_id ≠ A →
      linkGoogleToUser db A uid em dn
        = .error ⟨409, "This Google account is already linked to another account"⟩) ∧
    (∀ msg sigOk now stored ex, findNonce db msg.address = some stored →
      msg.nonce = stored.nonce → ¬(now - stored.issued_at > fiveMinutesMs) → sigOk = true →
      getIdentity db "SIWE" msg.address = some ex → ex.user_id ≠ A →
      postLinkSiwe db A msg sigOk now
        = (.err 409 "This wallet address is already linked to another account", db)) ∧
    (∀ info ex, getIdentity db "GOOGLE" info.uid = some ex → ex.user_id ≠ A →
      postLinkGoogle db A (.ok info)
        = (.err 409 "This Google account is already linked to another account", db)) := by
  refine ⟨?_, ?_, ?_, ?_, ?_, ?_, ?_, ?_⟩
  · intro hid
    refine ⟨insertIdentity db A "SIWE" addr none none, ?_, ?_⟩
    · simp [linkSiweToUser, hid]
    · simp [insertIdentity]
  · intro ex hid hA
    simp [linkSiweToUser, hid, hA]
  · intro ex hid hA
    simp [linkSiweToUser, hid, hA]
  · intro hid
    refine ⟨insertIdentity db A "GOOGLE" uid em dn, ?_, ?_⟩
    · simp [linkGoogleToUser, hid]
    · simp [insertIdentity]
  · intro ex hid hA
    simp [linkGoogleToUser, hid, hA]
  · intro ex hid hA
    simp [linkGoogleToUser, hid, hA]
  · intro msg sigOk now stored ex hf heq hnex hsig hid hA
    subst hsig
    simp [postLinkSiwe, hf, heq, hnex, linkSiweToUser, hid, hA]
  · intro info ex hid hA
    simp [postLinkGoogle, linkGoogleToUser, hid, hA]

/-- Witness for C1: on `linkConflictDB`, a fresh Google identity links onto
account `"0xA"`, re-linking the owned wallet is a no-op, and account `"0xB"`
attempting to take over the wallet gets the 409 both from the service and
from the full `POST /api/auth/link/siwe` endpoint with the state unchanged. -/
theorem link_identity_semantics_witness :
    (∃ db', linkGoogleToUser linkConflictDB "0xA" "g1" none none = .ok db' ∧
      db'.identities = linkConflictDB.identities
        ++ [⟨2, "0xA", "GOOGLE", "g1", none, none⟩]) ∧
    linkSiweToUser linkConflictDB "0xA" "0xA" = .ok linkConflictDB ∧
    linkSiweToUser linkConflictDB "0xB" "0xA"
      = .error ⟨409, "This wallet address is already linked to another account"⟩ ∧
    postLinkSiwe linkConflictDB "0xB" ⟨"0xA", "n1"⟩ true 10
      = (.err 409 "This wallet address is already linked to another account",
         linkConflictDB) :=
  ⟨(link_identity_semantics linkConflictDB "0xA" "0xA" "g1" none none).2.2.2.1 rfl,
   (link_identity_semantics linkConflictDB "0xA" "0xA" "g1" none none).2.1
     ⟨1, "0xA", "SIWE", "0xA", none, none⟩ rfl rfl,
   (link_identity_semantics linkConflictDB "0xB" "0xA" "g1" none none).2.2.1
     ⟨1, "0xA", "SIWE", "0xA", none, none⟩ rfl (by decide),
   (link_identity_semantics linkConflictDB "0xB" "0xA" "g1" none none).2.2.2.2.2.2.1
     ⟨"0xA", "n1"⟩ true 10 ⟨"0xA", "n1", 0⟩ ⟨1, "0xA", "SIWE", "0xA", none, none⟩
     rfl rfl (by decide) rfl rfl (by decide)⟩

/-! ## Claim about row scoping of the resource handlers -/

theorem map_eq_self_of_eq {α : Type} (l : List α) (f : α → α) (h : ∀ x ∈ l, f x = x) :
    l.map f = l := by
  induction l with
  | nil => rfl
  | cons a t ih => simp_all

theorem patchHeadacheEndpoint_headaches (db : DB) (u : String) (i : Nat) (p : HeadachePatch) :
    (patchHeadacheEndpoint db u i p).2.headaches
      = db.headaches.map
          (fun r => if r.id == i && r.user_id == u then applyHeadachePatch p r else r) := by
  unfold patchHeadacheEndpoint
  dsimp only
  split
  · rfl
  · split <;> rfl

theorem patchEventEndpoint_events (db : DB) (u : String) (i : Nat) (p : EventPatch) :
    (patchEventEndpoint db u i p).2.events
      = db.events.map
          (fun r => if r.id == i && r.user_id == u then applyEventPatch p r else r) := by
  unfold patchEventEndpoint
  dsimp only
  split
  · rfl
  · split <;> rfl

theorem deleteHeadacheEndpoint_headaches (db : DB) (u : String) (i : Nat) :
    (deleteHeadacheEndpoint db u i).2.headaches
      = db.headaches.filter (fun r => !(r.id == i && r.user_id == u)) := by
  unfold deleteHeadacheEndpoint
  dsimp only
  split <;> rfl

theorem deleteEventEndpoint_events (db : DB) (u : String) (i : Nat) :
    (deleteEventEndpoint db u i).2.events
      = db.events.filter (fun r => !(r.id == i && r.user_id == u)) := by
  unfold deleteEventEndpoint
  dsimp only
  split <;> rfl

/-- C2: row scoping — with resolved account id `X`, the scoped reads return
only rows owned by `X`; updates and deletes leave every row owned by any
other account `Y` in place; and when no row with the requested id is owned by
`X` (in particular when the id names `Y`'s row), the item endpoints answer
404 and the database is unchanged. -/
theorem row_scoping (db : DB) (X Y : String) (i : Nat) (hXY : X ≠ Y) :
    (∀ r, getHeadacheById db X i = some r → r.user_id = X) ∧
    (∀ r, getEventById db X i = some r → r.user_id = X) ∧
    (∀ s e r, r ∈ dashboardHeadaches db X s e → r.user_id = X) ∧
    (∀ s e r, r ∈ dashboardEvents db X s e → r.user_id = X) ∧
    (∀ p r, r ∈ db.headaches → r.user_id = Y →
      r ∈ (patchHeadacheEndpoint db X i p).2.headaches) ∧
    (∀ r, r ∈ db.headaches → r.user_id = Y →
      r ∈ (deleteHeadacheEndpoint db X i).2.headaches) ∧
    (∀ p r, r ∈ db.events → r.user_id = Y →
      r ∈ (patchEventEndpoint db X i p).2.events) ∧
    (∀ r, r ∈ db.events → r.user_id = Y →
      r ∈ (deleteEventEndpoint db X i).2.events) ∧
    ((∀ r ∈ db.headaches, r.id = i → r.user_id ≠ X) →
      getHeadacheEndpoint db X i = .err 404 "Not found" ∧
      (∀ p, patchHeadacheEndpoint db X i p = (.err 404 "Not found", db)) ∧
      deleteHeadacheEndpoint db X i = (.err 404 "Not found", db)) ∧
    ((∀ r ∈ db.events, r.id = i → r.user_id ≠ X) →
      getEventEndpoint db X i = .err 404 "Not found" ∧
      (∀ p, patchEventEndpoint db X i p = (.err 404 "Not found", db)) ∧
      deleteEventEndpoint db X i = (.err 404 "Not found", db)) := by
  refine ⟨?_, ?_, ?_, ?_, ?_, ?_, ?_, ?_, ?_, ?_⟩
  · intro r hr
    have := List.find?_some hr
    simp at this
    exact this.2
  · intro r hr
    have := List.find?_some hr
    simp at this
    exact this.2
  · intro s e r hr
    have hc := (List.mem_filter.mp hr).2
    simp at hc
    exact hc.2
  · intro s e r hr
    have hc := (List.mem_filter.mp hr).2
    simp at hc
    exact hc.2
  · intro p r hr hY
    rw [patchHeadacheEndpoint_headaches]
    have hbeq : (r.user_id == X) = false := by
      rw [hY]; exact beq_eq_false_iff_ne.mpr (Ne.symm hXY)
    have hfix : (if r.id == i && r.user_id == X then applyHeadachePatch p r else r) = r := by
      simp [hbeq]
    exact List.mem_map.mpr ⟨r, hr, hfix⟩
  · intro r hr hY
    rw [deleteHeadacheEndpoint_headaches]
    refine List.mem_filter.mpr ⟨hr, ?_⟩
    have hbeq : (r.user_id == X) = false := by
      rw [hY]; exact beq_eq_false_iff_ne.mpr (Ne.symm hXY)
    simp [hbeq]
  · intro p r hr hY
    rw [patchEventEndpoint_events]
    have hbeq : (r.user_id == X) = false := by
      rw [hY]; exact beq_eq_false_iff_ne.mpr (Ne.symm hXY)
    have hfix : (if r.id == i && r.user_id == X then applyEventPatch p r else r) = r := by
      simp [hbeq]
    exact List.mem_map.mpr ⟨r, hr, hfix⟩
  · intro r hr hY
    rw [deleteEventEndpoint_events]
    refine List.mem_filter.mpr ⟨hr, ?_⟩
    have hbeq : (r.user_id == X) = false := by
      rw [hY]; exact beq_eq_false_iff_ne.mpr (Ne.symm hXY)
    simp [hbeq]
  · intro hno
    have hfalse : ∀ r ∈ db.headaches, (r.id == i && r.user_id == X) = false := by
      intro r hr
      by_cases hid : r.id = i
      · simp [hid, hno r hr hid]
      · simp [hid]
    have hfindnone : db.headaches.find? (fun r => r.id == i && r.user_id == X) = none :=
      List.find?_eq_none.mpr (fun r hr => by simp [hfalse r hr])
    have hfilnil : db.headaches.filter (fun r => r.id == i && r.user_id == X) = [] :=
      List.filter_eq_nil_iff.mpr (fun r hr => by simp [hfalse r hr])
    refine ⟨by simp [getHeadacheEndpoint, getHeadacheById, hfindnone], ?_, ?_⟩
    · intro p
      unfold patchHeadacheEndpoint
      rw [hfilnil]
      rw [map_eq_self_of_eq _ _ (fun r hr => by simp [hfalse r hr])]
      rfl
    · unfold deleteHeadacheEndpoint
      rw [hfilnil]
      rw [List.filter_eq_self.mpr (fun r hr => by simp [hfalse r hr])]
      rfl
  · intro hno
    have hfalse : ∀ r ∈ db.events, (r.id == i && r.user_id == X) = false := by
      intro r hr
      by_cases hid : r.id = i
      · simp [hid, hno r hr hid]
      · simp [hid]
    have hfindnone : db.events.find? (fun r => r.id == i && r.user_id == X) = none :=
      List.find?_eq_none.mpr (fun r hr => by simp [hfalse r hr])
    have hfilnil : db.events.filter (fun r => r.id == i && r.user_id == X) = [] :=
      List.filter_eq_nil_iff.mpr (fun r hr => by simp [hfalse r hr])
    refine ⟨by simp [getEventEndpoint, getEventById, hfindnone], ?_, ?_⟩
    · intro p
      unfold patchEventEndpoint
      rw [hfilnil]
      rw [map_eq_self_of_eq _ _ (fun r hr => by simp [hfalse r hr])]
      rfl
    · unfold deleteEventEndpoint
      rw [hfilnil]
      rw [List.filter_eq_self.mpr (fun r hr => by simp [hfalse r hr])]
      rfl

/-- A database whose only headache and event rows belong to account `"u2"`. -/
def scopeDB : DB :=
  ⟨[], [], [], 1,
   [⟨1, "2024-01-01T00:00:00.000Z", 5, 0, "u2"⟩],
   [⟨1, "2024-01-01T00:00:00.000Z", "coffee", "1", "u2"⟩]⟩

/-- Witness for C2: account `"u1"` supplying the numeric id of `"u2"`'s row
gets 404 on read, update and delete, with the database unchanged. -/
theorem row_scoping_witness :
    getHeadacheEndpoint scopeDB "u1" 1 = .err 404 "Not found" ∧
    patchHeadacheEndpoint scopeDB "u1" 1 ⟨none, some 9, none⟩
      = (.err 404 "Not found", scopeDB) ∧
    deleteHeadacheEndpoint scopeDB "u1" 1 = (.err 404 "Not found", scopeDB) :=
  have hmain := (row_scoping scopeDB "u1" "u2" 1 (by decide)).2.2.2.2.2.2.2.2.1 (by decide)
  ⟨hmain.1, hmain.2.1 ⟨none, some 9, none⟩, hmain.2.2⟩

/-! ## Claim about the federated key-set cache -/

/-- C7 counterexample: with a fresh cache holding only key id `"k1"`
(`now = 0 < expiresAt = 100`), a token whose header names `"k2"` fails with
the unknown-key 401 and no network fetch occurs — even though the provider's
endpoint currently serves `"k2"`, so a refresh would have found it.  This
refutes the claim that an unrecognized key id triggers a refresh before the
UnknownKey decision. -/
theorem federated_no_refresh_on_unknown_kid :
    selectFirebaseKey ⟨some "k2"⟩ (some ⟨["k1"], 100⟩) 0 ["k1", "k2"]
      = (.error ⟨401, "Unknown Firebase token key id"⟩, some ⟨["k1"], 100⟩, false) ∧
    ("k2" ∈ ["k1", "k2"]) :=
  ⟨rfl, by decide⟩

/-- C7 amended: `verifyFirebaseIdToken` refetches the provider key set only
when no cache exists or the cached set is past its 55-minute expiry; with a
fresh cache the key id is looked up in the cached set alone, failing with the
unknown-key 401 when absent there, without any refresh. -/
theorem federated_key_cache_behavior (hdr : FbTokenHeader) (cache : Option CertCache)
    (now : Int) (pk : List String) (k : String) (hk : hdr.kid = some k) :
    (∀ c, cache = some c → now < c.expiresAt →
      selectFirebaseKey hdr cache now pk
        = ((if c.kids.contains k then .ok k
            else .error ⟨401, "Unknown Firebase token key id"⟩), some c, false)) ∧
    (cache = none →
      selectFirebaseKey hdr cache now pk
        = ((if pk.contains k then .ok k
            else .error ⟨401, "Unknown Firebase token key id"⟩),
           some ⟨pk, now + 55 * 60 * 1000⟩, true)) ∧
    (∀ c, cache = some c → ¬ now < c.expiresAt →
      selectFirebaseKey hdr cache now pk
        = ((if pk.contains k then .ok k
            else .error ⟨401, "Unknown Firebase token key id"⟩),
           some ⟨pk, now + 55 * 60 * 1000⟩, true)) := by
  refine ⟨?_, ?_, ?_⟩
  · intro c hc hlt
    simp only [selectFirebaseKey, fetchGoogleCerts, hk, hc, if_pos hlt]
    split <;> rfl
  · intro hc
    simp only [selectFirebaseKey, fetchGoogleCerts, hk, hc]
    split <;> rfl
  · intro c hc hlt
    simp only [selectFirebaseKey, fetchGoogleCerts, hk, hc, if_neg hlt]
    split <;> rfl

/-- Witness for C7 amended: known key id against a fresh cache — served from
the cache with no fetch. -/
theorem federated_key_cache_behavior_witness :
    selectFirebaseKey ⟨some "k1"⟩ (some ⟨["k1"], 100⟩) 0 ["k1", "k2"]
      = ((if (["k1"].contains "k1") then (.ok "k1" : Except HttpErr String)
          else .error ⟨401, "Unknown Firebase token key id"⟩),
         some ⟨["k1"], 100⟩, false) :=
  (federated_key_cache_behavior ⟨some "k1"⟩ (some ⟨["k1"], 100⟩) 0 ["k1", "k2"]
    "k1" rfl).1 ⟨["k1"], 100⟩ rfl (by decide)

/-! ## Claim about wallet account resolution (C8, code bug exhibit) -/

/-- A database where the wallet `"0xW"` was linked (via `linkSiweToUser`) onto
the Google-seeded account `"u-google"`: the identity `(SIWE, "0xW")` belongs
to `"u-google"`. -/
def walletRelinkDB : DB :=
  ⟨[], [⟨"u-google", none, none⟩],
   [⟨1, "u-google", "SIWE", "0xW", none, none⟩], 2, [], []⟩

/-- C8 exhibit: on `walletRelinkDB` the identity `(SIWE, "0xW")` belongs to
account `"u-google"`, yet `upsertUserForSiwe` returns `"0xW"` — not the
existing identity's account id — and creates a fresh `users_v2` row with id
`"0xW"`.  The code ignores the owning account of an existing wallet identity,
contradicting the documented canonical-account model. -/
theorem siwe_resolve_ignores_identity_owner :
    (getIdentity walletRelinkDB "SIWE" "0xW").map IdentityRow.user_id = some "u-google" ∧
    (upsertUserForSiwe walletRelinkDB "0xW").1 = "0xW" ∧
    ("0xW" : String) ≠ "u-google" ∧
    findUser (upsertUserForSiwe walletRelinkDB "0xW").2 "0xW"
      = some ⟨"0xW", none, none⟩ := by
  refine ⟨rfl, rfl, by decide, rfl⟩

/-! ## Claim about the auth middleware (C9) -/

/-- C9 counterexample: a Bearer header and a token that verifies to a payload
whose `sub` claim is present but empty is rejected with 401 — although the
header is well-formed, verification succeeds, and a `sub` claim exists — so
authentication failure is not equivalent to the claim's three conditions. -/
theorem auth_middleware_empty_sub_rejected :
    requireAuth (some "Bearer t") (fun _ => some ⟨some "", none⟩)
      = .error ⟨401, "Invalid or expired token"⟩ ∧
    (some "" : Option String) ≠ none :=
  ⟨rfl, by decide⟩

/-- C9 amended: the middleware fails — always with status 401 — iff the
header is absent or not Bearer-shaped, or token verification fails, or the
verified `sub` claim is absent or empty; otherwise the request proceeds and
the `sub` claim is the account id handed to handlers. -/
theorem auth_middleware_semantics (h : Option String) (v : String → Option JwtPayload) :
    ((∃ e, requireAuth h v = .error e) ↔
      (h = none ∨ ∃ s, h = some s ∧
        (s.take 7 ≠ "Bearer " ∨ v (s.drop 7) = none ∨
         ∃ p, v (s.drop 7) = some p ∧ (p.sub = none ∨ p.sub = some "")))) ∧
    (∀ e, requireAuth h v = .error e → e.status = 401) ∧
    (∀ u a, requireAuth h v = .ok (u, a) →
      ∃ s p, h = some s ∧ v (s.drop 7) = some p ∧ p.sub = some u ∧ a = p.siwe_address) := by
  cases h with
  | none => simp [requireAuth]
  | some s =>
    by_cases hb : s.take 7 = "Bearer "
    · cases hv : v (s.drop 7) with
      | none => simp [requireAuth, hb, hv]
      | some p =>
        cases hs : p.sub with
        | none => simp [requireAuth, hb, hv, hs]
        | some u =>
          by_cases hu : u = ""
          · simp [requireAuth, hb, hv, hs, hu]
          · simp [requireAuth, hb, hv, hs, hu]
    · simp [requireAuth, hb]

/-- Witness for C9 amended: a verified token with `sub = "acct"` passes and
exposes `"acct"` with the optional wallet address. -/
theorem auth_middleware_semantics_witness :
    ∃ s p, (some "Bearer tok" : Option String) = some s ∧
      (fun _ : String => some (⟨some "acct", some "0xA"⟩ : JwtPayload)) (s.drop 7)
        = some p ∧
      p.sub = some "acct" ∧ (some "0xA" : Option String) = p.siwe_address :=
  (auth_middleware_semantics (some "Bearer tok")
    (fun _ => some ⟨some "acct", some "0xA"⟩)).2.2 "acct" (some "0xA") rfl

/-! ## Claim about project-id selection (C10) -/

/-- C10 counterexample: a request body carrying `projectId = ""` — the field
is present — is not used; the server-configured project id is used instead,
refuting "taken from the body whenever that field is present". -/
theorem project_id_empty_body_falls_back :
    selectProjectId (some "") (some "proj") = .ok "proj" ∧ ("proj" : String) ≠ "" :=
  ⟨rfl, by decide⟩

/-- C10 amended: the verification audience is the body's `projectId` whenever
it is present and non-empty (so a client can choose the audience regardless of
server configuration); otherwise the server-configured value when that is
present and non-empty; the 500 "Server missing FIREBASE_PROJECT_ID" occurs
exactly when both are absent or empty. -/
theorem project_id_selection (body env : Option String) :
    (∀ p, body = some p → p ≠ "" → selectProjectId body env = .ok p) ∧
    (∀ q, (body = none ∨ body = some "") → env = some q → q ≠ "" →
      selectProjectId body env = .ok q) ∧
    ((∃ e, selectProjectId body env = .error e) ↔
      ((body = none ∨ body = some "") ∧ (env = none ∨ env = some ""))) ∧
    (∀ e, selectProjectId body env = .error e → e.status = 500) := by
  cases body with
  | none =>
    cases env with
    | none => simp [selectProjectId]
    | some q =>
      by_cases hq : q = ""
      · simp [selectProjectId, hq]
      · simp [selectProjectId, hq]
  | some p =>
    by_cases hp : p = ""
    · cases env with
      | none => simp [selectProjectId, hp]
      | some q =>
        by_cases hq : q = ""
        · simp [selectProjectId, hp, hq]
        · simp [selectProjectId, hp, hq]
    · simp [selectProjectId, hp]

/-- Witness for C10 amended: a non-empty body `projectId` wins over the
server configuration. -/
theorem project_id_selection_witness :
    selectProjectId (some "client-project") (some "server-project")
      = .ok "client-project" :=
  (project_id_selection (some "client-project") (some "server-project")).1
    "client-project" rfl (by decide)

end Headacher
